import Mathlib

/-!
Shallow embedding of the Vault-access secret-retrieval engine
(`src/vault-access/scripts/vault_access.py`) and proofs about it.

Modelling conventions:
- Python strings are Lean `String`s; character-level operations (strip,
  split, join, replace) are defined on `List Char` and lifted.
- The backend is an oracle `Server` mapping method and request path (the
  part of the URL after `{addr}/v1/`, with leading slashes stripped as in
  `make_request`) to an HTTP status and a parsed JSON object body.
  Transport-level failures (TLS, connection refused, timeout) terminate the
  process in the source before any status handling and are not modelled.
- `sys.exit(1)` paths are represented as classified `ErrKind` values.
- Operations additionally return the trace of issued backend requests, so
  that statements about which requests are attempted (and in which order)
  can be made.
-/

set_option maxHeartbeats 1000000

namespace VaultAccess

/-- JSON values as parsed from backend response bodies. -/
inductive JVal where
  | jnull
  | jbool (b : Bool)
  | jnum (n : Int)
  | jstr (s : String)
  | jarr (elems : List JVal)
  | jobj (fields : List (String × JVal))

/-- A parsed JSON object body, i.e. a Python dict of parsed JSON. Every
consumer in the source calls `.get` on response bodies, so bodies are
modelled as objects (`response.json() if response.text else {}`). -/
abbrev JObj := List (String × JVal)

/-- Python `d.get(k, dflt)`. -/
def pyGetD (o : JObj) (k : String) (dflt : JVal) : JVal :=
  match o.lookup k with
  | some v => v
  | none => dflt

/-- Python `d.get(k, {})` whose result is then used as a dict. A non-object
value at `k` would raise `AttributeError`/`TypeError` downstream in the
source; the claims only exercise object-shaped payloads, where this agrees
with the source. -/
def getDict (o : JObj) (k : String) : JObj :=
  match o.lookup k with
  | some (.jobj fs) => fs
  | some _ => []
  | none => []

/-- Python `result["data"].get("data", {}).get("keys", [])` from
`list_secrets`, used as a list. -/
def getKeys (o : JObj) : List JVal :=
  match (getDict o "data").lookup "keys" with
  | some (.jarr xs) => xs
  | some _ => []
  | none => []

/-- Python `s.lstrip(sep)` on character lists. -/
def lstripC (sep : Char) (cs : List Char) : List Char :=
  cs.dropWhile (fun c => c = sep)

/-- Python `s.rstrip(sep)` on character lists. -/
def rstripC (sep : Char) (cs : List Char) : List Char :=
  ((cs.reverse).dropWhile (fun c => c = sep)).reverse

/-- Python `s.strip(sep)` on character lists. -/
def stripC (sep : Char) (cs : List Char) : List Char :=
  rstripC sep (lstripC sep cs)

/-- Python `s.split(sep)` on character lists: `"".split(sep) == [""]` and
empty segments are kept. -/
def pySplit (sep : Char) : List Char → List (List Char)
  | [] => [[]]
  | c :: cs =>
    if c = sep then [] :: pySplit sep cs
    else
      match pySplit sep cs with
      | [] => [[c]]
      | h :: t => (c :: h) :: t

/-- Python `sep.join(parts)` on character lists. -/
def joinChar (sep : Char) : List (List Char) → List Char
  | [] => []
  | [x] => x
  | x :: y :: xs => x ++ sep :: joinChar sep (y :: xs)

/-- Python `s.strip()` (whitespace, both ends). -/
def stripWs (cs : List Char) : List Char :=
  ((cs.dropWhile Char.isWhitespace).reverse.dropWhile Char.isWhitespace).reverse

/-- Fuel-indexed worker for `removeExport`: structural recursion on the
fuel, which bounds the number of characters still to inspect. Every step
consumes at least one character, so fuel equal to the list length is
enough and the zero-fuel fallback is unreachable from `removeExport`. -/
def removeExportGo : Nat → List Char → List Char
  | _, [] => []
  | 0, cs => cs
  | fuel + 1, c :: cs =>
    if ("export ".data).isPrefixOf (c :: cs) then removeExportGo fuel (cs.drop 6)
    else c :: removeExportGo fuel cs

/-- Python `line.replace("export ", "")`: remove every occurrence of the
seven-character pattern, scanning left to right. -/
def removeExport (cs : List Char) : List Char :=
  removeExportGo cs.length cs

/-- Python regex `\w` (ASCII approximation, which covers every key the
source recognizes). -/
def isWordChar (c : Char) : Bool := c.isAlphanum || c = '_'

/-- The single-quote character, by code point. -/
def squote : Char := Char.ofNat 39

/-- Quote characters recognized by the shell-style line regex. -/
def isQuote (c : Char) : Bool := c = '"' || c = squote

/-- Python `re.match(r'(\w+)=["\x27]?([^"\x27]*)["\x27]?', line)`: the key is
the maximal leading word-character run, which must be followed by `=`; an
optional quote is consumed greedily; the value is the following maximal run
of non-quote characters. -/
def parseStdList (cs : List Char) : Option (List Char × List Char) :=
  let k := cs.takeWhile isWordChar
  let rest := cs.drop k.length
  if k = [] then none
  else
    match rest with
    | '=' :: r1 =>
      let r2 := if isQuote (r1.headD ' ') then r1.tail else r1
      some (k, r2.takeWhile (fun c => isQuote c = false))
    | _ => none

/-- Python `re.match(r'com\.sandata\.vault\.(\w+)=(.+)', line)`: the dotted
Java-properties format, whose value is the nonempty remainder of the line. -/
def parsePropList (cs : List Char) : Option (List Char × List Char) :=
  let pre := "com.sandata.vault.".data
  if pre.isPrefixOf cs then
    let rest := cs.drop pre.length
    let k := rest.takeWhile isWordChar
    match rest.drop k.length with
    | '=' :: v => if k = [] ∨ v = [] then none else some (k, v)
    | _ => none
  else none

/-- The credential record built by `load_credentials` (the source's `creds`
dict). The source's `namespace` key is `nspace` here (`namespace` is a Lean
keyword). -/
structure Creds where
  addr : Option String
  token : Option String
  role_id : Option String
  role_secret : Option String
  nspace : String
  skip_verify : Bool
  kv_version : String
  env : Option String
deriving DecidableEq, Repr

/-- Python truthiness of an optional string (`None` and `""` are falsy). -/
def pyTruthy : Option String → Bool
  | none => false
  | some s => decide (s ≠ "")

/-- Python `s.lower() == "true"` on the flag values the source compares. -/
def isTrueStr (s : String) : Bool :=
  decide (String.mk (s.data.map Char.toLower) = "true")

/-- The process environment, as consulted through `os.environ.get`. -/
def EnvMap := String → Option String

/-- Initial credential record (source lines 79-101): with an explicit
environment tag the process environment is not consulted at all; otherwise
environment variables seed the record. -/
def initCreds (envm : EnvMap) (env : Option String) : Creds :=
  match env with
  | some e =>
    { addr := none, token := none, role_id := none, role_secret := none,
      nspace := "", skip_verify := false, kv_version := "auto", env := some e }
  | none =>
    { addr := envm "VAULT_ADDR", token := envm "VAULT_TOKEN",
      role_id := envm "VAULT_ROLE_ID", role_secret := envm "VAULT_ROLE_SECRET",
      nspace := (envm "VAULT_NAMESPACE").getD "",
      skip_verify := isTrueStr ((envm "VAULT_SKIP_VERIFY").getD "false"),
      kv_version := (envm "VAULT_KV_VERSION").getD "auto", env := none }

/-- Fold state while reading a credential file: the credential record plus
the temporary `_server`, `_port`, `_protocol` keys. -/
structure LoadState where
  creds : Creds
  srv : Option String
  prt : Option String
  proto : Option String
deriving DecidableEq, Repr

/-- Apply one recognized shell-style `KEY=value` line (source lines
127-144): address, token and role fields fill only when still unset, while
namespace, TLS-skip flag and KV-version preference are assigned
unconditionally. -/
def applyStd (st : LoadState) (k v : String) : LoadState :=
  let c := st.creds
  if k = "VAULT_ADDR" ∧ pyTruthy c.addr = false then
    { st with creds := { c with addr := some v } }
  else if k = "VAULT_TOKEN" ∧ pyTruthy c.token = false then
    { st with creds := { c with token := some v } }
  else if k = "VAULT_ROLE_ID" ∧ pyTruthy c.role_id = false then
    { st with creds := { c with role_id := some v } }
  else if k = "VAULT_ROLE_SECRET" ∧ pyTruthy c.role_secret = false then
    { st with creds := { c with role_secret := some v } }
  else if k = "VAULT_NAMESPACE" then { st with creds := { c with nspace := v } }
  else if k = "VAULT_SKIP_VERIFY" then
    { st with creds := { c with skip_verify := isTrueStr v } }
  else if k = "VAULT_KV_VERSION" then { st with creds := { c with kv_version := v } }
  else st

/-- Apply one dotted-property line (source lines 146-162). -/
def applyProp (st : LoadState) (k v : String) : LoadState :=
  if k = "server" then { st with srv := some v }
  else if k = "port" then { st with prt := some v }
  else if k = "protocol" then { st with proto := some v }
  else if k = "roleId" ∧ pyTruthy st.creds.role_id = false then
    { st with creds := { st.creds with role_id := some v } }
  else if k = "roleSecret" ∧ pyTruthy st.creds.role_secret = false then
    { st with creds := { st.creds with role_secret := some v } }
  else st

/-- Process one raw credential-file line (source lines 113-162): strip
whitespace, skip blanks and comments, delete `export ` occurrences, then
try the shell-style regex first (its match consumes the line even when the
key is unrecognized) and the dotted-property regex second. -/
def processLine (st : LoadState) (rawLine : String) : LoadState :=
  let line := stripWs rawLine.data
  if line = [] ∨ ("#".data).isPrefixOf line then st
  else
    let line2 := removeExport line
    match parseStdList line2 with
    | some kv => applyStd st (String.mk kv.1) (String.mk kv.2)
    | none =>
      match parsePropList line2 with
      | some kv => applyProp st (String.mk kv.1) (String.mk kv.2)
      | none => st

/-- Configuration failures: the source prints a message and exits before any
network call. -/
inductive ConfigError where
  | missingAddr
  | missingAuth
deriving DecidableEq, Repr

/-- Python `load_credentials` (source lines 68-198). Credential-file
discovery walks the filesystem in the source; it is abstracted here to the
content of the first existing candidate file (`none` when no candidate
exists). After the file is folded in, a missing address is synthesized from
the dotted `server`/`port`/`protocol` properties, then the record is
validated and the address normalized (trailing slashes removed). -/
def load_credentials (envm : EnvMap) (fileLines : Option (List String))
    (env : Option String) : Except ConfigError Creds :=
  let st0 : LoadState := ⟨initCreds envm env, none, none, none⟩
  let st := match fileLines with
    | none => st0
    | some ls => ls.foldl processLine st0
  let c0 := st.creds
  let c :=
    if pyTruthy c0.addr = false ∧ pyTruthy st.srv = true then
      { c0 with addr := some ((st.proto.getD "https") ++ "://" ++ (st.srv.getD "")
          ++ ":" ++ (st.prt.getD "8200")) }
    else c0
  if pyTruthy c.addr = false then .error .missingAddr
  else if pyTruthy c.token = false ∧
      (pyTruthy c.role_id = false ∨ pyTruthy c.role_secret = false) then
    .error .missingAuth
  else .ok { c with addr := some (String.mk (rstripC '/' ((c.addr.getD "").data))) }

/-- HTTP methods used by `make_request`. -/
inductive Method where
  | GET
  | POST
  | LIST
deriving DecidableEq, Repr

/-- The normalized response shape every transport call reduces to (source
lines 284-288). -/
structure ApiResult where
  status_code : Nat
  data : JObj
  ok : Bool

/-- A backend: maps method and request path (the part of the URL after
`{addr}/v1/`) to an HTTP status and a parsed JSON object body. -/
def Server := Method → String → Nat × JObj

/-- Python `make_request` (source lines 259-307): the URL is
`{addr}/v1/{path.lstrip('/')}` and `response.ok` is `status_code < 400`.
Also returns the issued request, for trace bookkeeping. -/
def make_request (server : Server) (m : Method) (path : String) :
    ApiResult × (Method × String) :=
  let p := String.mk (lstripC '/' path.data)
  let r := server m p
  ({ status_code := r.1, data := r.2, ok := decide (r.1 < 400) }, (m, p))

/-- Classified terminal errors: each constructor is one `sys.exit(1)` path
with its printed message. -/
inductive ErrKind where
  | invalidPath
  | keyNotFound
  | permissionDenied
  | badRequest
  | secretNotFound
  | serverError
  | sealedError
  | otherError (status : Nat)
deriving DecidableEq, Repr

/-- Python `handle_error` (source lines 461-486): classify an error response
and exit. -/
def handle_error (r : ApiResult) : ErrKind :=
  if r.status_code = 400 then .badRequest
  else if r.status_code = 403 then .permissionDenied
  else if r.status_code = 404 then .secretNotFound
  else if r.status_code = 500 then .serverError
  else if r.status_code = 503 then .sealedError
  else .otherError r.status_code

/-- Result of an operation: a returned value or a classified terminal
error. -/
inductive Outcome (α : Type) where
  | success (v : α)
  | failure (e : ErrKind)

/-- The dict returned by `get_secret`: `{"data": ..., "version": ...}`. -/
structure GetResult where
  data : JObj
  version : String

/-- The key-filtering block that the v2 and v1 success branches of
`get_secret` repeat verbatim (source lines 344-351 and 369-376). -/
def keyFilter (data : JObj) (key : Option String) (ver : String) :
    Outcome GetResult :=
  match key with
  | none => .success ⟨data, ver⟩
  | some k =>
    match data.lookup k with
    | some v => .success ⟨[(k, v)], ver⟩
    | none => .failure .keyNotFound

/-- The KV v1 block of `get_secret` (source lines 363-380). It runs only
when the resolved version is auto or 1; otherwise execution reaches the
source's final `return {"data": {}, "version": "unknown"}`. -/
def getPhaseV1 (server : Server) (kv : String) (path : String)
    (key : Option String) (tr : List (Method × String)) :
    Outcome GetResult × List (Method × String) :=
  if kv = "auto" ∨ kv = "1" then
    let rq := make_request server .GET path
    let r := rq.1
    let tr := tr ++ [rq.2]
    if r.ok then (keyFilter (getDict r.data "data") key "1", tr)
    else (.failure (handle_error r), tr)
  else (.success ⟨[], "unknown"⟩, tr)

/-- Python `get_secret` (source lines 310-380), returning the outcome and
the trace of issued backend requests. -/
def get_secret (server : Server) (credsKv : String) (path : String)
    (key : Option String) (kv_arg : String) :
    Outcome GetResult × List (Method × String) :=
  let kv := if kv_arg = "auto" then credsKv else kv_arg
  let parts := pySplit '/' (stripC '/' path.data)
  if parts.length < 2 then (.failure .invalidPath, [])
  else
    let mount := String.mk (parts.headD [])
    let secret_path := String.mk (joinChar '/' parts.tail)
    if kv = "auto" ∨ kv = "2" then
      let rq := make_request server .GET (mount ++ "/data/" ++ secret_path)
      let r := rq.1
      let tr := [rq.2]
      if r.ok then (keyFilter (getDict (getDict r.data "data") "data") key "2", tr)
      else if kv = "auto" ∧ r.status_code = 404 then getPhaseV1 server kv path key tr
      else if r.status_code = 403 then (.failure .permissionDenied, tr)
      else if r.status_code ≠ 404 then (.failure (handle_error r), tr)
      else getPhaseV1 server kv path key tr
    else getPhaseV1 server kv path key []

/-- The KV v1 block of `list_secrets` (source lines 417-426). -/
def listPhaseV1 (server : Server) (kv : String) (path : String)
    (tr : List (Method × String)) :
    Outcome (List JVal) × List (Method × String) :=
  if kv = "auto" ∨ kv = "1" then
    let rq := make_request server .LIST (String.mk (rstripC '/' path.data))
    let r := rq.1
    let tr := tr ++ [rq.2]
    if r.ok then (.success (getKeys r.data), tr)
    else (.failure (handle_error r), tr)
  else (.success [], tr)

/-- Python `list_secrets` (source lines 383-426). Unlike `get_secret`, no
minimum-segment validation is performed on the path. -/
def list_secrets (server : Server) (credsKv : String) (path : String)
    (kv_arg : String) : Outcome (List JVal) × List (Method × String) :=
  let kv := if kv_arg = "auto" then credsKv else kv_arg
  let parts := pySplit '/' (stripC '/' path.data)
  let mount := String.mk (parts.headD [])
  let list_path := if parts.length > 1 then String.mk (joinChar '/' parts.tail) else ""
  if kv = "auto" ∨ kv = "2" then
    let rq := make_request server .LIST
      (String.mk (rstripC '/' (mount ++ "/metadata/" ++ list_path).data))
    let r := rq.1
    let tr := [rq.2]
    if r.ok then (.success (getKeys r.data), tr)
    else if kv = "auto" ∧ r.status_code = 404 then listPhaseV1 server kv path tr
    else if r.status_code = 403 then (.failure .permissionDenied, tr)
    else if r.status_code ≠ 404 then (.failure (handle_error r), tr)
    else listPhaseV1 server kv path tr
  else listPhaseV1 server kv path []

/-- The dict returned by `check_status` (source lines 429-458): one of three
shapes, depending on which probe failed. -/
inductive StatusResult where
  | notConnected
  | authFailed (sealedFlag : JVal)
  | authOk (sealedFlag accessor policies ttl renewable : JVal)

/-- Python `check_status` (source lines 429-458), with the request trace.
The token self-lookup is issued whenever the seal probe succeeded. -/
def check_status (server : Server) : StatusResult × List (Method × String) :=
  let rq := make_request server .GET "sys/seal-status"
  let r := rq.1
  if r.ok = false then (.notConnected, [rq.2])
  else
    let tq := make_request server .GET "auth/token/lookup-self"
    let t := tq.1
    let sealedFlag := pyGetD r.data "sealed" (.jbool false)
    if t.ok = false then (.authFailed sealedFlag, [rq.2, tq.2])
    else
      let info := getDict t.data "data"
      (.authOk sealedFlag (pyGetD info "accessor" (.jstr ""))
        (pyGetD info "policies" (.jarr [])) (pyGetD info "ttl" (.jnum 0))
        (pyGetD info "renewable" (.jbool false)), [rq.2, tq.2])

/-- The `connected` field of the status dict. -/
def StatusResult.connected : StatusResult → Bool
  | .notConnected => false
  | _ => true

/-- The `sealed` field of the status dict, absent when not connected. -/
def StatusResult.sealedField : StatusResult → Option JVal
  | .notConnected => none
  | .authFailed s => some s
  | .authOk s _ _ _ _ => some s

/-- The `authenticated` field of the status dict, absent when not
connected. -/
def StatusResult.authenticated : StatusResult → Option Bool
  | .notConnected => none
  | .authFailed _ => some false
  | .authOk _ _ _ _ _ => some true

/-- Python `mask_value` (source lines 489-495). The source's `show`
parameter is `reveal` here (`show` is a Lean keyword). -/
def mask_value (value : String) (reveal : Bool) : String :=
  if reveal then value
  else if value.length ≤ 4 then "****"
  else String.mk (value.data.take 2 ++ List.replicate (value.data.length - 4) '*'
      ++ value.data.drop (value.data.length - 2))

/-- Backend that answers 404 to every request. -/
def server404 : Server := fun _ _ => (404, [])

/-- Backend holding one KV v2 secret at logical path `secret/myapp/database`
(so its data lives at `secret/data/myapp/database`). -/
def v2Server : Server := fun m p =>
  if m = .GET ∧ p = "secret/data/myapp/database" then
    (200, [("data", .jobj [("data", .jobj [("user", .jstr "admin")])])])
  else (404, [])

/-- Backend holding one KV v1 secret at `secret/myapp/database`. -/
def v1Server : Server := fun m p =>
  if m = .GET ∧ p = "secret/myapp/database" then
    (200, [("data", .jobj [("user", .jstr "admin")])])
  else (404, [])

/-- Backend that denies permission on every request. -/
def server403 : Server := fun _ _ =>
  (403, [("errors", .jarr [.jstr "permission denied"])])

/-- Sealed backend: the seal probe succeeds and reports sealed; every other
request (including the token self-lookup) fails with 503. -/
def sealedServer : Server := fun m p =>
  if m = .GET ∧ p = "sys/seal-status" then (200, [("sealed", .jbool true)])
  else (503, [("errors", .jarr [.jstr "Vault is sealed"])])

/-- Backend listing one entry under the v2 metadata path of mount
`secret`. -/
def listServer : Server := fun m p =>
  if m = .LIST ∧ p = "secret/metadata" then
    (200, [("data", .jobj [("keys", .jarr [.jstr "app1/"])])])
  else (404, [])

/-- Process environment for the namespace-precedence scenario: address,
token and namespace are all set as environment variables. -/
def envC5 : EnvMap := fun k =>
  if k = "VAULT_ADDR" then some "http://env-vault:8200"
  else if k = "VAULT_TOKEN" then some "env-token"
  else if k = "VAULT_NAMESPACE" then some "ns-env"
  else none

/-- Credential file consisting of one line that sets the namespace. -/
def fileC5 : List String := ["VAULT_NAMESPACE=\"ns-file\""]

/-- Process environment supplying only a static token. -/
def envTok : EnvMap := fun k => if k = "VAULT_TOKEN" then some "t" else none

/-! Helper lemmas about the character-list operations. -/

lemma stringMkData (s : String) : String.mk s.data = s := rfl

lemma stringLengthData (s : String) : s.length = s.data.length := rfl

lemma dropWhile_eq_self_of_head (p : Char → Bool) (cs : List Char)
    (h : ∀ c, cs.head? = some c → p c = false) : cs.dropWhile p = cs := by
  cases cs with
  | nil => rfl
  | cons c cs => simp [List.dropWhile, h c rfl]

lemma lstripC_eq_self (sep : Char) (cs : List Char)
    (h : ∀ c, cs.head? = some c → c ≠ sep) : lstripC sep cs = cs := by
  refine dropWhile_eq_self_of_head _ _ (fun c hc => ?_)
  simpa using h c hc

lemma rstripC_eq_self (sep : Char) (cs : List Char)
    (h : cs.getLast? ≠ some sep) : rstripC sep cs = cs := by
  unfold rstripC
  rw [dropWhile_eq_self_of_head, List.reverse_reverse]
  intro c hc
  rw [List.head?_reverse] at hc
  simp only [decide_eq_false_iff_not]
  intro hcs
  exact h (hcs ▸ hc)

lemma mask_data_parts (v : String) (h : 4 < v.length) :
    (mask_value v false).data
      = v.data.take 2 ++ List.replicate (v.data.length - 4) '*'
        ++ v.data.drop (v.data.length - 2)
    ∧ (mask_value v false).data.length = v.data.length := by
  have hlen : ¬ v.length ≤ 4 := by omega
  have hdata : (mask_value v false).data
      = v.data.take 2 ++ List.replicate (v.data.length - 4) '*'
        ++ v.data.drop (v.data.length - 2) := by
    simp [mask_value, hlen]
  refine ⟨hdata, ?_⟩
  rw [hdata]
  have h4 : 4 < v.data.length := by rwa [stringLengthData] at h
  simp [List.length_take, List.length_drop, List.length_replicate]
  omega

end VaultAccess

namespace VaultAccess

lemma pySplit_ne_nil (sep : Char) (cs : List Char) : pySplit sep cs ≠ [] := by
  cases cs with
  | nil => simp [pySplit]
  | cons c cs =>
    simp only [pySplit]
    split
    · simp
    · split <;> simp

lemma pySplit_exists_cons (sep : Char) (cs : List Char) :
    ∃ hh t, pySplit sep cs = hh :: t := by
  rcases hx : pySplit sep cs with _ | ⟨hh, t⟩
  · exact absurd hx (pySplit_ne_nil sep cs)
  · exact ⟨hh, t, rfl⟩

lemma pySplit_cons_ne (sep c : Char) (cs : List Char) (h : ¬ c = sep) :
    pySplit sep (c :: cs)
      = (c :: (pySplit sep cs).headD []) :: (pySplit sep cs).tail := by
  obtain ⟨hh, t, he⟩ := pySplit_exists_cons sep cs
  simp [pySplit, h, he]

lemma pySplit_append_sep (sep : Char) (m s : List Char) (hm : sep ∉ m) :
    pySplit sep (m ++ sep :: s) = m :: pySplit sep s := by
  induction m with
  | nil => simp [pySplit]
  | cons c cs ih =>
    have hc : ¬ c = sep := fun hcc => hm (by simp [hcc])
    have ih2 := ih (fun hx => hm (List.mem_cons_of_mem _ hx))
    rw [List.cons_append, pySplit_cons_ne sep c _ hc, ih2]
    simp

lemma joinChar_pySplit (sep : Char) (cs : List Char) :
    joinChar sep (pySplit sep cs) = cs := by
  induction cs with
  | nil => rfl
  | cons c cs ih =>
    obtain ⟨hh, t, he⟩ := pySplit_exists_cons sep cs
    by_cases hc : c = sep
    · rw [show pySplit sep (c :: cs) = [] :: pySplit sep cs by simp [pySplit, hc], he]
      rw [joinChar]
      rw [he] at ih
      simp [ih, hc]
    · rw [pySplit_cons_ne sep c cs hc, he]
      rw [he] at ih
      cases t with
      | nil =>
        simp only [List.headD_cons, List.tail_cons]
        rw [joinChar]
        rw [joinChar] at ih
        rw [ih]
      | cons y ys =>
        simp only [List.headD_cons, List.tail_cons]
        rw [joinChar]
        rw [joinChar] at ih
        rw [← ih]
        simp

lemma pySplit_single (sep : Char) (cs : List Char) (h : sep ∉ cs) :
    pySplit sep cs = [cs] := by
  induction cs with
  | nil => rfl
  | cons c cs ih =>
    have hc : ¬ c = sep := fun hcc => h (by simp [hcc])
    rw [pySplit_cons_ne sep c cs hc, ih (fun hx => h (List.mem_cons_of_mem _ hx))]
    rfl

lemma lstripC_mount_start (mount rest : List Char)
    (hm1 : mount ≠ []) (hm2 : '/' ∉ mount) :
    lstripC '/' (mount ++ rest) = mount ++ rest := by
  apply lstripC_eq_self
  intro c hc
  cases mount with
  | nil => exact absurd rfl hm1
  | cons m ms =>
    simp only [List.cons_append, List.head?_cons, Option.some.injEq] at hc
    subst hc
    exact fun hce => hm2 (by simp [hce])

lemma stripC_canonical (mount sub : List Char) (hm1 : mount ≠ []) (hm2 : '/' ∉ mount)
    (hs1 : sub ≠ []) (hs2 : sub.getLast? ≠ some '/') :
    stripC '/' (mount ++ '/' :: sub) = mount ++ '/' :: sub := by
  unfold stripC
  rw [show mount ++ '/' :: sub = mount ++ ('/' :: sub) from rfl]
  rw [lstripC_mount_start mount _ hm1 hm2]
  apply rstripC_eq_self
  rw [List.getLast?_append_of_ne_nil _ (by simp : ('/' :: sub) ≠ [])]
  rw [show ('/' :: sub) = ['/'] ++ sub from rfl]
  rw [List.getLast?_append_of_ne_nil _ hs1]
  exact hs2

lemma stripC_eq_self_of_not_mem (sep : Char) (cs : List Char) (h : sep ∉ cs) :
    stripC sep cs = cs := by
  unfold stripC
  rw [lstripC_eq_self sep cs (fun c hc hce => h (hce ▸ List.mem_of_mem_head? hc))]
  exact rstripC_eq_self sep cs
    (fun hl => h (List.mem_of_mem_getLast? hl))

lemma rstripC_append_sep (sep : Char) (cs : List Char) :
    rstripC sep (cs ++ [sep]) = rstripC sep cs := by
  unfold rstripC
  rw [List.reverse_append]
  simp [List.dropWhile]

/-- C7: `mask_value` is a total deterministic function: with `reveal` it
returns the value unchanged; values of length at most 4 become the fixed
four-character mask; longer values keep their first two and last two
characters with the interior replaced by asterisks, so the output length
equals the input length; in particular `mask_value "ab" false = "****"`
and `mask_value "abcdef" false = "ab**ef"`. -/
theorem C7_mask_contract (v : String) :
    mask_value v true = v
    ∧ (v.length ≤ 4 → mask_value v false = "****")
    ∧ (4 < v.length →
        (mask_value v false).length = v.length
        ∧ (mask_value v false).data.take 2 = v.data.take 2
        ∧ (mask_value v false).data.drop (v.length - 2) = v.data.drop (v.length - 2)
        ∧ ((mask_value v false).data.drop 2).take (v.length - 4)
            = List.replicate (v.length - 4) '*')
    ∧ mask_value "ab" false = "****"
    ∧ mask_value "abcdef" false = "ab**ef" := by
  refine ⟨by simp [mask_value], fun h => by simp [mask_value, h], fun h => ?_, rfl, rfl⟩
  obtain ⟨hdata, hlen⟩ := mask_data_parts v h
  have h4 : 4 < v.data.length := by rwa [stringLengthData] at h
  have htk : (v.data.take 2).length = 2 := by
    rw [List.length_take]; omega
  have hrep : (List.replicate (v.data.length - 4) '*').length = v.data.length - 4 :=
    List.length_replicate _ _
  refine ⟨?_, ?_, ?_, ?_⟩
  · rw [stringLengthData, stringLengthData, hlen]
  · rw [hdata, List.append_assoc, List.take_left' htk]
  · rw [stringLengthData, hdata, List.drop_left']
    rw [List.length_append, htk, hrep]; omega
  · rw [stringLengthData, hdata, List.append_assoc, List.drop_left' htk,
      List.take_left' hrep]

/-- C7 theorem applied at the concrete strings of the claim. -/
theorem C7_mask_contract_witness :
    mask_value "ab" false = "****"
    ∧ (mask_value "abcdef" false).length = ("abcdef" : String).length :=
  ⟨(C7_mask_contract "ab").2.1 (by decide),
   ((C7_mask_contract "abcdef").2.2.1 (by decide)).1⟩

/-- C9: masking is idempotent: masking an already-masked value returns it
unchanged, because the masked form of a long value preserves its length and
its first two and last two characters, and the fixed mask has length 4 and
maps to itself. -/
theorem C9_mask_idempotent (v : String) :
    mask_value (mask_value v false) false = mask_value v false := by
  by_cases h : v.length ≤ 4
  · have h1 : mask_value v false = "****" := by simp [mask_value, h]
    rw [h1]; rfl
  · push_neg at h
    obtain ⟨hdata, hlen⟩ := mask_data_parts v h
    have h4 : 4 < v.data.length := by rwa [stringLengthData] at h
    have htk : (v.data.take 2).length = 2 := by
      rw [List.length_take]; omega
    have hrep : (List.replicate (v.data.length - 4) '*').length = v.data.length - 4 :=
      List.length_replicate _ _
    set m := mask_value v false with hm
    have hmlen : ¬ m.length ≤ 4 := by rw [stringLengthData, hlen]; omega
    have houter : mask_value m false
        = String.mk (m.data.take 2 ++ List.replicate (m.data.length - 4) '*'
            ++ m.data.drop (m.data.length - 2)) := by
      simp [mask_value, hmlen]
    have h1 : m.data.take 2 = v.data.take 2 := by
      rw [hdata, List.append_assoc, List.take_left' htk]
    have h2 : m.data.drop (v.data.length - 2) = v.data.drop (v.data.length - 2) := by
      rw [hdata, List.drop_left']
      rw [List.length_append, htk, hrep]; omega
    have hmdata : m.data.length = v.data.length := hlen
    rw [houter, hmdata, h1, h2]
    conv_rhs => rw [← stringMkData m, hdata]

/-- C4: resolving credentials with an explicit environment tag reads no
process environment variables: the result is the same function of the
selected environment-scoped credential file for every process
environment. -/
theorem C4_env_tag_ignores_environment (e : String) (envm envm2 : EnvMap)
    (fileLines : Option (List String)) :
    load_credentials envm fileLines (some e) = load_credentials envm2 fileLines (some e) := rfl

/-- C3: evaluation at the failing input. With an explicit KV version 2 and a
backend that answers 404, `get_secret` returns the sentinel record
`{"data": {}, "version": "unknown"}` after the single V2 request instead of
failing with the 404-derived not-found error; with an explicit version 1 and
the same backend the promised classified error is produced. -/
theorem C3_explicit_v2_404_returns_sentinel :
    get_secret server404 "auto" "secret/myapp/database" none "2"
      = (.success ⟨[], "unknown"⟩, [(.GET, "secret/data/myapp/database")])
    ∧ get_secret server404 "auto" "secret/myapp/database" none "1"
      = (.failure .secretNotFound, [(.GET, "secret/myapp/database")]) :=
  ⟨rfl, rfl⟩

lemma getPhaseV1_trace (server : Server) (kv path : String) (key : Option String)
    (tr : List (Method × String)) :
    ∃ xs, (getPhaseV1 server kv path key tr).2 = tr ++ xs := by
  simp only [getPhaseV1]
  split
  · split
    · exact ⟨_, rfl⟩
    · exact ⟨_, rfl⟩
  · exact ⟨[], by simp⟩

lemma getPhaseV1_trace_len (server : Server) (kv path : String) (key : Option String)
    (tr : List (Method × String)) :
    (getPhaseV1 server kv path key tr).2.length ≤ tr.length + 1 := by
  simp only [getPhaseV1]
  split
  · split <;> simp
  · simp

lemma listPhaseV1_trace (server : Server) (kv path : String)
    (tr : List (Method × String)) :
    ∃ xs, (listPhaseV1 server kv path tr).2 = tr ++ xs := by
  simp only [listPhaseV1]
  split
  · split
    · exact ⟨_, rfl⟩
    · exact ⟨_, rfl⟩
  · exact ⟨[], by simp⟩

/-- C5: counterexample to the claim as stated: with no environment tag, the
`VAULT_NAMESPACE` value taken from the process environment (`"ns-env"`) is
overwritten by the default credential file line, so the resolved namespace
is the file value `"ns-file"`. -/
theorem C5_counterexample :
    envC5 "VAULT_NAMESPACE" = some "ns-env"
    ∧ load_credentials envC5 (some fileC5) none
      = .ok { addr := some "http://env-vault:8200", token := some "env-token",
              role_id := none, role_secret := none, nspace := "ns-file",
              skip_verify := false, kv_version := "auto", env := none } :=
  ⟨rfl, rfl⟩

/-- C6: counterexample to the claim as stated: against a backend whose
seal-state probe succeeds and reports sealed, `check_status` still issues
the token self-lookup request (the second entry of the request trace). -/
theorem C6_counterexample :
    (check_status sealedServer).2
      = [(.GET, "sys/seal-status"), (.GET, "auth/token/lookup-self")] := rfl

/-- C6 (amended): for every status call whose seal-state probe succeeds and
reports sealed, the result is `connected=true`, `sealed=true`, and
`authenticated=false` provided the token self-lookup fails (as it does
against a sealed backend); however the token self-lookup request is always
issued after a successful seal probe, sealed or not. -/
theorem C6_sealed_status_fields (server : Server)
    (hok : (server .GET "sys/seal-status").1 < 400)
    (hsealed : pyGetD (server .GET "sys/seal-status").2 "sealed" (.jbool false)
        = .jbool true)
    (hlookup : ¬ (server .GET "auth/token/lookup-self").1 < 400) :
    check_status server
      = (.authFailed (.jbool true),
         [(.GET, "sys/seal-status"), (.GET, "auth/token/lookup-self")])
    ∧ (check_status server).1.connected = true
    ∧ (check_status server).1.sealedField = some (.jbool true)
    ∧ (check_status server).1.authenticated = some false := by
  have e1 : make_request server .GET "sys/seal-status"
      = ({ status_code := (server .GET "sys/seal-status").1,
           data := (server .GET "sys/seal-status").2,
           ok := decide ((server .GET "sys/seal-status").1 < 400) },
         (.GET, "sys/seal-status")) := rfl
  have e2 : make_request server .GET "auth/token/lookup-self"
      = ({ status_code := (server .GET "auth/token/lookup-self").1,
           data := (server .GET "auth/token/lookup-self").2,
           ok := decide ((server .GET "auth/token/lookup-self").1 < 400) },
         (.GET, "auth/token/lookup-self")) := rfl
  have hok1 : decide ((server .GET "sys/seal-status").1 < 400) = true :=
    decide_eq_true hok
  have hok2 : decide ((server .GET "auth/token/lookup-self").1 < 400) = false := by
    simpa using hlookup
  have hmain : check_status server
      = (.authFailed (.jbool true),
         [(.GET, "sys/seal-status"), (.GET, "auth/token/lookup-self")]) := by
    simp only [check_status, e1, e2, hok1, hok2, hsealed]
    simp
  refine ⟨hmain, ?_, ?_, ?_⟩ <;> rw [hmain] <;> rfl

/-- C6 amended theorem, applied to the concrete sealed backend. -/
theorem C6_sealed_status_fields_witness :
    check_status sealedServer
      = (.authFailed (.jbool true),
         [(.GET, "sys/seal-status"), (.GET, "auth/token/lookup-self")]) :=
  (C6_sealed_status_fields sealedServer (by decide) rfl (by decide)).1

/-- C8: counterexample to the claim as stated: `list_secrets` accepts the
single-segment path `"secret"` (a mount alone) and issues a backend LIST
request against `secret/metadata` rather than rejecting the path before any
backend request. -/
theorem C8_counterexample :
    list_secrets listServer "auto" "secret" "auto"
      = (.success [.jstr "app1/"], [(.LIST, "secret/metadata")]) := rfl

/-- C8 (amended): `get_secret` rejects every input path with fewer than two
slash-delimited segments with an error before issuing any backend request;
`list_secrets` performs no such validation: on a nonempty single-segment
path (a mount alone, with the version preference resolving to auto or 2)
its first issued backend request is a LIST against `mount/metadata`. -/
theorem C8_get_validates_but_list_does_not (server : Server)
    (credsKv kvArg : String) (key : Option String) (path : String) :
    ((pySplit '/' (stripC '/' path.data)).length < 2 →
      get_secret server credsKv path key kvArg = (.failure .invalidPath, []))
    ∧ (path.data ≠ [] → '/' ∉ path.data →
      ((if kvArg = "auto" then credsKv else kvArg) = "auto"
        ∨ (if kvArg = "auto" then credsKv else kvArg) = "2") →
      ((list_secrets server credsKv path kvArg).2).head?
        = some (.LIST, path ++ "/metadata")) := by
  constructor
  · intro hshort
    simp only [get_secret]
    rw [if_pos hshort]
  · intro hne hns hkv
    have hstrip : stripC '/' path.data = path.data :=
      stripC_eq_self_of_not_mem '/' path.data hns
    have hsplit : pySplit '/' path.data = [path.data] :=
      pySplit_single '/' path.data hns
    have hrs2 : rstripC '/' (path.data ++ ['/', 'm', 'e', 't', 'a', 'd', 'a', 't', 'a', '/'])
        = path.data ++ ['/', 'm', 'e', 't', 'a', 'd', 'a', 't', 'a'] := by
      rw [show path.data ++ ['/', 'm', 'e', 't', 'a', 'd', 'a', 't', 'a', '/']
          = (path.data ++ ['/', 'm', 'e', 't', 'a', 'd', 'a', 't', 'a']) ++ ['/'] by simp,
        rstripC_append_sep]
      apply rstripC_eq_self
      rw [List.getLast?_append_of_ne_nil _
        (by decide : (['/', 'm', 'e', 't', 'a', 'd', 'a', 't', 'a'] : List Char) ≠ [])]
      decide
    have hls2 : lstripC '/' (path.data ++ ['/', 'm', 'e', 't', 'a', 'd', 'a', 't', 'a'])
        = path.data ++ ['/', 'm', 'e', 't', 'a', 'd', 'a', 't', 'a'] :=
      lstripC_mount_start path.data _ hne hns
    have hstr : String.mk (path.data ++ ['/', 'm', 'e', 't', 'a', 'd', 'a', 't', 'a'])
        = path ++ "/metadata" := by
      rw [← stringMkData (path ++ "/metadata")]
      congr 1
    simp only [list_secrets, hstrip, hsplit, List.headD_cons, List.tail_cons,
      List.length_cons, List.length_nil, stringMkData]
    norm_num
    simp only [make_request, hrs2, hls2, hstr]
    rcases hkv with h | h <;> rw [h]
    · rw [if_pos (Or.inl rfl : ("auto" : String) = "auto" ∨ ("auto" : String) = "2")]
      repeat' split
      all_goals
        first
          | simp
          | (obtain ⟨xs, hxs⟩ :=
              listPhaseV1_trace server "auto" path [(Method.LIST, path ++ "/metadata")]
             rw [hxs]
             simp)
    · rw [if_pos (Or.inr rfl : ("2" : String) = "auto" ∨ ("2" : String) = "2")]
      repeat' split
      all_goals
        first
          | simp
          | (obtain ⟨xs, hxs⟩ :=
              listPhaseV1_trace server "2" path [(Method.LIST, path ++ "/metadata")]
             rw [hxs]
             simp)

/-- C8 amended theorem, applied at the concrete single-segment path
`"secret"`: `get_secret` rejects it without issuing a request, while
`list_secrets` issues the LIST against `secret/metadata` first. -/
theorem C8_get_validates_but_list_does_not_witness :
    get_secret listServer "auto" "secret" none "auto" = (.failure .invalidPath, [])
    ∧ ((list_secrets listServer "auto" "secret" "auto").2).head?
        = some (.LIST, "secret/metadata") :=
  ⟨(C8_get_validates_but_list_does_not listServer "auto" "auto" none "secret").1
      (by decide),
   (C8_get_validates_but_list_does_not listServer "auto" "auto" none "secret").2
      (by decide) (by decide) (Or.inl rfl)⟩

lemma getPath_facts (mount sub : String)
    (hm1 : mount.data ≠ []) (hm2 : '/' ∉ mount.data)
    (hs1 : sub.data ≠ []) (hs2 : sub.data.getLast? ≠ some '/') :
    (mount ++ "/" ++ sub).data = mount.data ++ '/' :: sub.data
    ∧ stripC '/' (mount.data ++ '/' :: sub.data) = mount.data ++ '/' :: sub.data
    ∧ pySplit '/' (mount.data ++ '/' :: sub.data) = mount.data :: pySplit '/' sub.data
    ∧ String.mk (joinChar '/' (pySplit '/' sub.data)) = sub := by
  refine ⟨by simp [String.data_append], ?_, ?_, ?_⟩
  · exact stripC_canonical mount.data sub.data hm1 hm2 hs1 hs2
  · exact pySplit_append_sep '/' mount.data sub.data hm2
  · rw [joinChar_pySplit]

/-- C1: with the version preference resolving to Auto, `get_secret` on a
canonical path `mount/subpath` first issues a GET against
`mount/data/subpath` (the V2 layout); if that attempt is ok it is the only
request and the result is version `"2"` with the doubly-unwrapped data; if
it returns status 404 exactly one further request is issued, a GET against
`mount/subpath` (the V1 layout), whose success yields version `"1"`; and in
every case at most two requests are issued, so no third attempt is ever
made. -/
theorem C1_auto_negotiates_v2_then_v1 (server : Server)
    (credsKv kvArg : String) (mount sub : String)
    (heff : (if kvArg = "auto" then credsKv else kvArg) = "auto")
    (hm1 : mount.data ≠ []) (hm2 : '/' ∉ mount.data)
    (hs1 : sub.data ≠ []) (hs2 : sub.data.getLast? ≠ some '/') :
    (∀ key, ((get_secret server credsKv (mount ++ "/" ++ sub) key kvArg).2).head?
        = some (.GET, mount ++ "/data/" ++ sub))
    ∧ ((server .GET (mount ++ "/data/" ++ sub)).1 < 400 →
        (∀ key, (get_secret server credsKv (mount ++ "/" ++ sub) key kvArg).2
            = [(.GET, mount ++ "/data/" ++ sub)])
        ∧ get_secret server credsKv (mount ++ "/" ++ sub) none kvArg
            = (.success ⟨getDict (getDict (server .GET (mount ++ "/data/" ++ sub)).2
                  "data") "data", "2"⟩,
               [(.GET, mount ++ "/data/" ++ sub)]))
    ∧ ((server .GET (mount ++ "/data/" ++ sub)).1 = 404 →
        (∀ key, (get_secret server credsKv (mount ++ "/" ++ sub) key kvArg).2
            = [(.GET, mount ++ "/data/" ++ sub), (.GET, mount ++ "/" ++ sub)])
        ∧ ((server .GET (mount ++ "/" ++ sub)).1 < 400 →
            get_secret server credsKv (mount ++ "/" ++ sub) none kvArg
              = (.success ⟨getDict (server .GET (mount ++ "/" ++ sub)).2 "data", "1"⟩,
                 [(.GET, mount ++ "/data/" ++ sub), (.GET, mount ++ "/" ++ sub)])))
    ∧ (∀ key, ((get_secret server credsKv (mount ++ "/" ++ sub) key kvArg).2).length ≤ 2)
    := by
  obtain ⟨e1, e2, e3, e4⟩ := getPath_facts mount sub hm1 hm2 hs1 hs2
  have hlen2 : ¬ (mount.data :: pySplit '/' sub.data).length < 2 := by
    have h0 := pySplit_ne_nil '/' sub.data
    have h1 : 0 < (pySplit '/' sub.data).length := List.length_pos.mpr h0
    simp only [List.length_cons]
    omega
  have hv2d : (mount ++ "/data/" ++ sub).data
      = mount.data ++ ("/data/".data ++ sub.data) := by
    simp [String.data_append]
  have hv2l : lstripC '/' (mount ++ "/data/" ++ sub).data
      = (mount ++ "/data/" ++ sub).data := by
    rw [hv2d]
    exact lstripC_mount_start mount.data _ hm1 hm2
  have hv1l : lstripC '/' (mount ++ "/" ++ sub).data
      = (mount ++ "/" ++ sub).data := by
    rw [e1]
    exact lstripC_mount_start mount.data _ hm1 hm2
  refine ⟨?_, ?_, ?_, ?_⟩
  · intro key
    simp only [get_secret, heff, e1, e2, e3, List.headD_cons, List.tail_cons,
      stringMkData, e4]
    rw [if_neg hlen2]
    simp only [true_or, if_true, true_and]
    simp only [make_request, hv2l, stringMkData]
    repeat' split
    all_goals
      first
        | simp
        | (obtain ⟨xs, hxs⟩ := getPhaseV1_trace server "auto" (mount ++ "/" ++ sub) key
              [(Method.GET, mount ++ "/data/" ++ sub)]
           rw [hxs]
           simp)
  · intro hok
    have hokd : decide ((server .GET (mount ++ "/data/" ++ sub)).1 < 400) = true :=
      decide_eq_true hok
    constructor
    · intro key
      simp only [get_secret, heff, e1, e2, e3, List.headD_cons, List.tail_cons,
        stringMkData, e4]
      rw [if_neg hlen2]
      simp only [true_or, if_true, true_and]
      simp only [make_request, hv2l, stringMkData]
      simp only [hokd, if_true]
    · simp only [get_secret, heff, e1, e2, e3, List.headD_cons, List.tail_cons,
        stringMkData, e4]
      rw [if_neg hlen2]
      simp only [true_or, if_true, true_and]
      simp only [make_request, hv2l, stringMkData]
      simp only [hokd, if_true]
      simp [keyFilter]
  · intro h404
    constructor
    · intro key
      simp only [get_secret, heff, e1, e2, e3, List.headD_cons, List.tail_cons,
        stringMkData, e4]
      rw [if_neg hlen2]
      simp only [true_or, if_true, true_and]
      simp only [make_request, hv2l, stringMkData]
      rw [h404]
      simp only [show decide (404 < 400) = false from rfl, Bool.false_eq_true, if_false,
        show ((404 : Nat) = 404) = True by simp, if_true]
      simp only [getPhaseV1, true_or, if_true]
      simp only [make_request, hv1l, stringMkData]
      repeat' split
      all_goals simp
    · intro hv1ok
      have hokd1 : decide ((server .GET (mount ++ "/" ++ sub)).1 < 400) = true :=
        decide_eq_true hv1ok
      simp only [get_secret, heff, e1, e2, e3, List.headD_cons, List.tail_cons,
        stringMkData, e4]
      rw [if_neg hlen2]
      simp only [true_or, if_true, true_and]
      simp only [make_request, hv2l, stringMkData]
      rw [h404]
      simp only [show decide (404 < 400) = false from rfl, Bool.false_eq_true, if_false,
        show ((404 : Nat) = 404) = True by simp, if_true]
      simp only [getPhaseV1, true_or, if_true]
      simp only [make_request, hv1l, stringMkData]
      simp only [hokd1, if_true]
      simp [keyFilter]
  · intro key
    simp only [get_secret, heff, e1, e2, e3, List.headD_cons, List.tail_cons,
      stringMkData, e4]
    rw [if_neg hlen2]
    simp only [true_or, if_true, true_and]
    simp only [make_request, hv2l, stringMkData]
    repeat' split
    all_goals
      first
        | simp
        | (simpa using getPhaseV1_trace_len server "auto" (mount ++ "/" ++ sub) key
            [(Method.GET, mount ++ "/data/" ++ sub)])

/-- C1 theorem applied to concrete backends: a V2-only backend answers the
first request and yields version 2; a V1-only backend answers 404 on the V2
layout and the single fallback request yields version 1. -/
theorem C1_auto_negotiates_v2_then_v1_witness :
    get_secret v2Server "auto" "secret/myapp/database" none "auto"
      = (.success ⟨[("user", .jstr "admin")], "2"⟩,
         [(.GET, "secret/data/myapp/database")])
    ∧ get_secret v1Server "auto" "secret/myapp/database" none "auto"
      = (.success ⟨[("user", .jstr "admin")], "1"⟩,
         [(.GET, "secret/data/myapp/database"), (.GET, "secret/myapp/database")]) :=
  ⟨((C1_auto_negotiates_v2_then_v1 v2Server "auto" "auto" "secret" "myapp/database"
      (by decide) (by decide) (by decide) (by decide) (by decide)).2.1
      (by decide)).2,
   (((C1_auto_negotiates_v2_then_v1 v1Server "auto" "auto" "secret" "myapp/database"
      (by decide) (by decide) (by decide) (by decide) (by decide)).2.2.1
      (by decide)).2 (by decide))⟩

/-- C2: whenever the V2 attempt of `get_secret` is made (version preference
resolving to Auto or V2) and the backend answers 403, the call fails
immediately with the permission-denied error after that single request: no
V1 attempt follows. -/
theorem C2_v2_403_fails_immediately (server : Server)
    (credsKv kvArg : String) (mount sub : String) (key : Option String)
    (hkv : (if kvArg = "auto" then credsKv else kvArg) = "auto"
        ∨ (if kvArg = "auto" then credsKv else kvArg) = "2")
    (hm1 : mount.data ≠ []) (hm2 : '/' ∉ mount.data)
    (hs1 : sub.data ≠ []) (hs2 : sub.data.getLast? ≠ some '/')
    (h403 : (server .GET (mount ++ "/data/" ++ sub)).1 = 403) :
    get_secret server credsKv (mount ++ "/" ++ sub) key kvArg
      = (.failure .permissionDenied, [(.GET, mount ++ "/data/" ++ sub)]) := by
  obtain ⟨e1, e2, e3, e4⟩ := getPath_facts mount sub hm1 hm2 hs1 hs2
  have hlen2 : ¬ (mount.data :: pySplit '/' sub.data).length < 2 := by
    have h0 := pySplit_ne_nil '/' sub.data
    have h1 : 0 < (pySplit '/' sub.data).length := List.length_pos.mpr h0
    simp only [List.length_cons]
    omega
  have hv2d : (mount ++ "/data/" ++ sub).data
      = mount.data ++ ("/data/".data ++ sub.data) := by
    simp [String.data_append]
  have hv2l : lstripC '/' (mount ++ "/data/" ++ sub).data
      = (mount ++ "/data/" ++ sub).data := by
    rw [hv2d]
    exact lstripC_mount_start mount.data _ hm1 hm2
  simp only [get_secret, e1, e2, e3, List.headD_cons, List.tail_cons,
    stringMkData, e4]
  rw [if_neg hlen2, if_pos hkv]
  simp only [make_request, hv2l, stringMkData]
  rw [h403]
  simp only [show decide (403 < 400) = false from rfl, Bool.false_eq_true, if_false,
    show ((403 : Nat) = 404) = False by simp, and_false,
    show ((403 : Nat) = 403) = True by simp, if_true]

/-- C2 theorem applied to a concrete permission-denying backend in Auto
mode. -/
theorem C2_v2_403_fails_immediately_witness :
    get_secret server403 "auto" "secret/myapp/database" none "auto"
      = (.failure .permissionDenied, [(.GET, "secret/data/myapp/database")]) :=
  C2_v2_403_fails_immediately server403 "auto" "auto" "secret" "myapp/database"
    none (by decide) (by decide) (by decide) (by decide) (by decide) (by decide)

lemma dropWhile_eq_self_of_all (p : Char → Bool) (cs : List Char)
    (h : ∀ c ∈ cs, p c = false) : cs.dropWhile p = cs := by
  cases cs with
  | nil => rfl
  | cons c cs2 => simp [List.dropWhile, h c (by simp)]

lemma stripWs_eq_self (cs : List Char)
    (h : ∀ c ∈ cs, c.isWhitespace = false) : stripWs cs = cs := by
  unfold stripWs
  rw [dropWhile_eq_self_of_all _ _ h,
    dropWhile_eq_self_of_all _ _ (fun c hc => h c (List.mem_reverse.mp hc)),
    List.reverse_reverse]

lemma removeExportGo_eq_self (fuel : Nat) (cs : List Char) (h : ' ' ∉ cs) :
    removeExportGo fuel cs = cs := by
  induction fuel generalizing cs with
  | zero => cases cs <;> rfl
  | succ fuel ih =>
    cases cs with
    | nil => rfl
    | cons c cs2 =>
      have hpre : ("export ".data).isPrefixOf (c :: cs2) = false := by
        rw [Bool.eq_false_iff]
        intro hp
        exact h ((List.isPrefixOf_iff_prefix.mp hp).subset (by decide))
      simp only [removeExportGo, hpre, Bool.false_eq_true, if_false]
      rw [ih cs2 (fun hx => h (List.mem_cons_of_mem _ hx))]

lemma removeExport_eq_self (cs : List Char) (h : ' ' ∉ cs) :
    removeExport cs = cs := removeExportGo_eq_self cs.length cs h

lemma parseStdList_com (rest : List Char) :
    parseStdList ('c' :: 'o' :: 'm' :: '.' :: rest) = none := by
  simp [parseStdList, List.takeWhile, isWordChar]

lemma parsePropList_server (V : List Char) (hV : V ≠ []) :
    parsePropList ("com.sandata.vault.server=".data ++ V)
      = some ("server".data, V) := by
  simp [parsePropList, List.takeWhile, isWordChar, hV,
    show "com.sandata.vault.server=".data ++ V
      = "com.sandata.vault.".data ++ ("server=".data ++ V) from rfl,
    List.isPrefixOf_iff_prefix]

lemma parsePropList_protocol (V : List Char) (hV : V ≠ []) :
    parsePropList ("com.sandata.vault.protocol=".data ++ V)
      = some ("protocol".data, V) := by
  simp [parsePropList, List.takeWhile, isWordChar, hV,
    show "com.sandata.vault.protocol=".data ++ V
      = "com.sandata.vault.".data ++ ("protocol=".data ++ V) from rfl,
    List.isPrefixOf_iff_prefix]

lemma parsePropList_port (V : List Char) (hV : V ≠ []) :
    parsePropList ("com.sandata.vault.port=".data ++ V)
      = some ("port".data, V) := by
  simp [parsePropList, List.takeWhile, isWordChar, hV,
    show "com.sandata.vault.port=".data ++ V
      = "com.sandata.vault.".data ++ ("port=".data ++ V) from rfl,
    List.isPrefixOf_iff_prefix]

lemma propLine_noWs (pre : List Char) (S : String)
    (hpre : ∀ c ∈ pre, c.isWhitespace = false)
    (hS : ∀ c ∈ S.data, c.isWhitespace = false) :
    ∀ c ∈ pre ++ S.data, c.isWhitespace = false := by
  intro c hc
  rcases List.mem_append.mp hc with h | h
  · exact hpre c h
  · exact hS c h

lemma processLine_server (st : LoadState) (S : String) (hS1 : S.data ≠ [])
    (hS2 : ∀ c ∈ S.data, c.isWhitespace = false) :
    processLine st ("com.sandata.vault.server=" ++ S) = { st with srv := some S } := by
  have hdata : ("com.sandata.vault.server=" ++ S).data
      = "com.sandata.vault.server=".data ++ S.data := by
    simp [String.data_append]
  have hws : ∀ c ∈ "com.sandata.vault.server=".data ++ S.data, c.isWhitespace = false :=
    propLine_noWs _ S (by decide) hS2
  have hsp : ' ' ∉ "com.sandata.vault.server=".data ++ S.data := by
    intro hmem
    have := hws ' ' hmem
    simp at this
  simp only [processLine, hdata, stripWs_eq_self _ hws, removeExport_eq_self _ hsp]
  rw [show ("com.sandata.vault.server=".data ++ S.data)
      = 'c' :: 'o' :: 'm' :: '.' :: ("sandata.vault.server=".data ++ S.data) from rfl]
  rw [parseStdList_com]
  rw [show ('c' :: 'o' :: 'm' :: '.' :: ("sandata.vault.server=".data ++ S.data))
      = "com.sandata.vault.server=".data ++ S.data from rfl]
  rw [parsePropList_server S.data hS1]
  have hne : ¬ ("com.sandata.vault.server=".data ++ S.data = []
      ∨ ("#".data).isPrefixOf ("com.sandata.vault.server=".data ++ S.data) = true) := by
    simp
  rw [if_neg hne]
  simp [applyProp, stringMkData]

lemma processLine_protocol (st : LoadState) (P : String) (hP1 : P.data ≠ [])
    (hP2 : ∀ c ∈ P.data, c.isWhitespace = false) :
    processLine st ("com.sandata.vault.protocol=" ++ P) = { st with proto := some P } := by
  have hdata : ("com.sandata.vault.protocol=" ++ P).data
      = "com.sandata.vault.protocol=".data ++ P.data := by
    simp [String.data_append]
  have hws : ∀ c ∈ "com.sandata.vault.protocol=".data ++ P.data, c.isWhitespace = false :=
    propLine_noWs _ P (by decide) hP2
  have hsp : ' ' ∉ "com.sandata.vault.protocol=".data ++ P.data := by
    intro hmem
    have := hws ' ' hmem
    simp at this
  simp only [processLine, hdata, stripWs_eq_self _ hws, removeExport_eq_self _ hsp]
  rw [show ("com.sandata.vault.protocol=".data ++ P.data)
      = 'c' :: 'o' :: 'm' :: '.' :: ("sandata.vault.protocol=".data ++ P.data) from rfl]
  rw [parseStdList_com]
  rw [show ('c' :: 'o' :: 'm' :: '.' :: ("sandata.vault.protocol=".data ++ P.data))
      = "com.sandata.vault.protocol=".data ++ P.data from rfl]
  rw [parsePropList_protocol P.data hP1]
  have hne : ¬ ("com.sandata.vault.protocol=".data ++ P.data = []
      ∨ ("#".data).isPrefixOf ("com.sandata.vault.protocol=".data ++ P.data) = true) := by
    simp
  rw [if_neg hne]
  simp [applyProp, stringMkData]

lemma processLine_port (st : LoadState) (N : String) (hN1 : N.data ≠ [])
    (hN2 : ∀ c ∈ N.data, c.isWhitespace = false) :
    processLine st ("com.sandata.vault.port=" ++ N) = { st with prt := some N } := by
  have hdata : ("com.sandata.vault.port=" ++ N).data
      = "com.sandata.vault.port=".data ++ N.data := by
    simp [String.data_append]
  have hws : ∀ c ∈ "com.sandata.vault.port=".data ++ N.data, c.isWhitespace = false :=
    propLine_noWs _ N (by decide) hN2
  have hsp : ' ' ∉ "com.sandata.vault.port=".data ++ N.data := by
    intro hmem
    have := hws ' ' hmem
    simp at this
  simp only [processLine, hdata, stripWs_eq_self _ hws, removeExport_eq_self _ hsp]
  rw [show ("com.sandata.vault.port=".data ++ N.data)
      = 'c' :: 'o' :: 'm' :: '.' :: ("sandata.vault.port=".data ++ N.data) from rfl]
  rw [parseStdList_com]
  rw [show ('c' :: 'o' :: 'm' :: '.' :: ("sandata.vault.port=".data ++ N.data))
      = "com.sandata.vault.port=".data ++ N.data from rfl]
  rw [parsePropList_port N.data hN1]
  have hne : ¬ ("com.sandata.vault.port=".data ++ N.data = []
      ∨ ("#".data).isPrefixOf ("com.sandata.vault.port=".data ++ N.data) = true) := by
    simp
  rw [if_neg hne]
  simp [applyProp, stringMkData]

lemma applyStd_preserves (st : LoadState) (k v : String) :
    (pyTruthy st.creds.addr = true → (applyStd st k v).creds.addr = st.creds.addr)
    ∧ (pyTruthy st.creds.token = true → (applyStd st k v).creds.token = st.creds.token)
    ∧ (pyTruthy st.creds.role_id = true → (applyStd st k v).creds.role_id = st.creds.role_id)
    ∧ (pyTruthy st.creds.role_secret = true →
        (applyStd st k v).creds.role_secret = st.creds.role_secret) := by
  refine ⟨fun h1 => ?_, fun h2 => ?_, fun h3 => ?_, fun h4 => ?_⟩ <;>
    (simp only [applyStd]; split_ifs) <;> simp_all

lemma applyProp_preserves (st : LoadState) (k v : String) :
    (pyTruthy st.creds.addr = true → (applyProp st k v).creds.addr = st.creds.addr)
    ∧ (pyTruthy st.creds.token = true → (applyProp st k v).creds.token = st.creds.token)
    ∧ (pyTruthy st.creds.role_id = true → (applyProp st k v).creds.role_id = st.creds.role_id)
    ∧ (pyTruthy st.creds.role_secret = true →
        (applyProp st k v).creds.role_secret = st.creds.role_secret) := by
  refine ⟨fun h1 => ?_, fun h2 => ?_, fun h3 => ?_, fun h4 => ?_⟩ <;>
    (simp only [applyProp]; split_ifs) <;> simp_all

lemma processLine_preserves (st : LoadState) (l : String) :
    (pyTruthy st.creds.addr = true → (processLine st l).creds.addr = st.creds.addr)
    ∧ (pyTruthy st.creds.token = true → (processLine st l).creds.token = st.creds.token)
    ∧ (pyTruthy st.creds.role_id = true → (processLine st l).creds.role_id = st.creds.role_id)
    ∧ (pyTruthy st.creds.role_secret = true →
        (processLine st l).creds.role_secret = st.creds.role_secret) := by
  simp only [processLine]
  split
  · exact ⟨fun _ => rfl, fun _ => rfl, fun _ => rfl, fun _ => rfl⟩
  · split
    · exact applyStd_preserves st _ _
    · split
      · exact applyProp_preserves st _ _
      · exact ⟨fun _ => rfl, fun _ => rfl, fun _ => rfl, fun _ => rfl⟩

lemma foldl_preserves (lines : List String) (st : LoadState) :
    (pyTruthy st.creds.addr = true →
        (lines.foldl processLine st).creds.addr = st.creds.addr)
    ∧ (pyTruthy st.creds.token = true →
        (lines.foldl processLine st).creds.token = st.creds.token)
    ∧ (pyTruthy st.creds.role_id = true →
        (lines.foldl processLine st).creds.role_id = st.creds.role_id)
    ∧ (pyTruthy st.creds.role_secret = true →
        (lines.foldl processLine st).creds.role_secret = st.creds.role_secret) := by
  induction lines generalizing st with
  | nil => exact ⟨fun _ => rfl, fun _ => rfl, fun _ => rfl, fun _ => rfl⟩
  | cons l ls ih =>
    have hp := processLine_preserves st l
    refine ⟨fun h1 => ?_, fun h2 => ?_, fun h3 => ?_, fun h4 => ?_⟩
    · have e := hp.1 h1
      rw [List.foldl_cons, (ih (processLine st l)).1 (by rw [e]; exact h1), e]
    · have e := hp.2.1 h2
      rw [List.foldl_cons, (ih (processLine st l)).2.1 (by rw [e]; exact h2), e]
    · have e := hp.2.2.1 h3
      rw [List.foldl_cons, (ih (processLine st l)).2.2.1 (by rw [e]; exact h3), e]
    · have e := hp.2.2.2 h4
      rw [List.foldl_cons, (ih (processLine st l)).2.2.2 (by rw [e]; exact h4), e]

lemma pyTruthy_getD (o : Option String) : pyTruthy o = true ↔ o.getD "" ≠ "" := by
  cases o <;> simp [pyTruthy]

lemma load_ok_fields (envm : EnvMap) (lines : List String) (c : Creds)
    (h : load_credentials envm (some lines) none = .ok c) :
    (pyTruthy (lines.foldl processLine
        ⟨initCreds envm none, none, none, none⟩).creds.addr = true →
      c.addr = some (String.mk (rstripC '/'
        ((((lines.foldl processLine
            ⟨initCreds envm none, none, none, none⟩).creds.addr).getD "").data))))
    ∧ c.token = (lines.foldl processLine
        ⟨initCreds envm none, none, none, none⟩).creds.token
    ∧ c.role_id = (lines.foldl processLine
        ⟨initCreds envm none, none, none, none⟩).creds.role_id
    ∧ c.role_secret = (lines.foldl processLine
        ⟨initCreds envm none, none, none, none⟩).creds.role_secret := by
  simp only [load_credentials] at h
  split_ifs at h with hsyn hnoaddr hnoauth
  all_goals simp only [Except.ok.injEq] at h
  all_goals subst h
  · refine ⟨fun htr => absurd htr (by simp [hsyn.1]), rfl, rfl, rfl⟩
  · exact ⟨fun _ => rfl, rfl, rfl, rfl⟩

/-- C5 (amended): with no environment tag, the address, token, role-id and
role-secret values taken from process environment variables are never
overwritten by the default credential file (the file fills them only when
unset or empty; the address is additionally normalized by removing trailing
slashes). This does not extend to the namespace, TLS-skip flag or
KV-version preference, which a file line overwrites unconditionally. -/
theorem C5_env_values_guarded_fields (envm : EnvMap) (lines : List String)
    (c : Creds) (hload : load_credentials envm (some lines) none = .ok c) :
    ((envm "VAULT_ADDR").getD "" ≠ "" →
        c.addr = some (String.mk (rstripC '/' (((envm "VAULT_ADDR").getD "").data))))
    ∧ ((envm "VAULT_TOKEN").getD "" ≠ "" → c.token = envm "VAULT_TOKEN")
    ∧ ((envm "VAULT_ROLE_ID").getD "" ≠ "" → c.role_id = envm "VAULT_ROLE_ID")
    ∧ ((envm "VAULT_ROLE_SECRET").getD "" ≠ "" →
        c.role_secret = envm "VAULT_ROLE_SECRET") := by
  obtain ⟨ha, ht, hr1, hr2⟩ := load_ok_fields envm lines c hload
  have hfold := foldl_preserves lines ⟨initCreds envm none, none, none, none⟩
  refine ⟨fun h1 => ?_, fun h2 => ?_, fun h3 => ?_, fun h4 => ?_⟩
  · have htr : pyTruthy (envm "VAULT_ADDR") = true := (pyTruthy_getD _).mpr h1
    have e := hfold.1 htr
    rw [ha (by rw [e]; exact htr), e]
    rfl
  · have htr : pyTruthy (envm "VAULT_TOKEN") = true := (pyTruthy_getD _).mpr h2
    rw [ht, hfold.2.1 htr]
    rfl
  · have htr : pyTruthy (envm "VAULT_ROLE_ID") = true := (pyTruthy_getD _).mpr h3
    rw [hr1, hfold.2.2.1 htr]
    rfl
  · have htr : pyTruthy (envm "VAULT_ROLE_SECRET") = true := (pyTruthy_getD _).mpr h4
    rw [hr2, hfold.2.2.2 htr]
    rfl

/-- C5 amended theorem applied at the concrete environment and file of the
counterexample: the token from the environment survives file processing. -/
theorem C5_env_values_guarded_fields_witness :
    ({ addr := some "http://env-vault:8200", token := some "env-token",
       role_id := none, role_secret := none, nspace := "ns-file",
       skip_verify := false, kv_version := "auto", env := none } : Creds).token
      = envC5 "VAULT_TOKEN" :=
  (C5_env_values_guarded_fields envC5 fileC5 _ rfl).2.1 (by decide)

/-- C10: when no explicit backend address is configured and the credential
file supplies dotted properties, the synthesized address defaults the
protocol to `https` and the port to `8200`: a file giving only a server `S`
yields `https://S:8200`, and a file giving server `S`, protocol `P` and
port `N` yields `P://S:N`. -/
theorem C10_dotted_properties_synthesize_address (S P N : String)
    (hS1 : S.data ≠ []) (hS2 : ∀ c ∈ S.data, c.isWhitespace = false)
    (hP1 : P.data ≠ []) (hP2 : ∀ c ∈ P.data, c.isWhitespace = false)
    (hN1 : N.data ≠ []) (hN2 : ∀ c ∈ N.data, c.isWhitespace = false)
    (hN3 : N.data.getLast? ≠ some '/') :
    load_credentials envTok (some ["com.sandata.vault.server=" ++ S]) none
      = .ok { addr := some ("https://" ++ S ++ ":8200"), token := some "t",
              role_id := none, role_secret := none, nspace := "",
              skip_verify := false, kv_version := "auto", env := none }
    ∧ load_credentials envTok
        (some ["com.sandata.vault.server=" ++ S,
               "com.sandata.vault.protocol=" ++ P,
               "com.sandata.vault.port=" ++ N]) none
      = .ok { addr := some (P ++ "://" ++ S ++ ":" ++ N), token := some "t",
              role_id := none, role_secret := none, nspace := "",
              skip_verify := false, kv_version := "auto", env := none } := by
  have hSne : S ≠ "" := fun he => hS1 (by rw [he])
  have hStr : pyTruthy (some S) = true := by simp [pyTruthy, hSne]
  constructor
  · simp only [load_credentials, List.foldl_cons, List.foldl_nil,
      processLine_server _ S hS1 hS2]
    have hInit : initCreds envTok none
        = { addr := none, token := some "t", role_id := none, role_secret := none,
            nspace := "", skip_verify := false, kv_version := "auto", env := none } := rfl
    have haddr : ("https" ++ "://" ++ S ++ ":" ++ "8200" : String)
        = "https://" ++ S ++ ":8200" := by
      rw [← stringMkData ("https" ++ "://" ++ S ++ ":" ++ "8200"),
        ← stringMkData ("https://" ++ S ++ ":8200")]
      congr 1
      simp [String.data_append]
    have hbigne : ("https://" ++ S ++ ":8200" : String) ≠ "" := by
      intro he
      have hd := congrArg String.data he
      simp [String.data_append] at hd
    have hlast : ("https://" ++ S ++ ":8200" : String).data.getLast? = some '0' := by
      have hd : ("https://" ++ S ++ ":8200" : String).data
          = ("https://".data ++ S.data) ++ ":8200".data := by
        simp [String.data_append]
      rw [hd, List.getLast?_append_of_ne_nil _ (by decide : (":8200" : String).data ≠ [])]
      decide
    simp only [hInit, hStr, show pyTruthy none = false from rfl, Option.getD, haddr]
    norm_num
    simp only [show pyTruthy (some ("https://" ++ S ++ ":8200")) = true by
        simp [pyTruthy, hbigne],
      show pyTruthy (some "t") = true from rfl]
    norm_num
    have hform : 'h' :: 't' :: 't' :: 'p' :: 's' :: ':' :: '/' :: '/'
          :: (S.data ++ [':', '8', '2', '0', '0'])
        = ("https://" ++ S ++ ":8200" : String).data := by
      simp [String.data_append]
    rw [hform, rstripC_eq_self '/' _ (by rw [hlast]; decide), stringMkData]
  · simp only [load_credentials, List.foldl_cons, List.foldl_nil,
      processLine_server _ S hS1 hS2, processLine_protocol _ P hP1 hP2,
      processLine_port _ N hN1 hN2]
    have hInit : initCreds envTok none
        = { addr := none, token := some "t", role_id := none, role_secret := none,
            nspace := "", skip_verify := false, kv_version := "auto", env := none } := rfl
    have hbigne : (P ++ "://" ++ S ++ ":" ++ N : String) ≠ "" := by
      intro he
      have hd := congrArg String.data he
      simp [String.data_append, hP1] at hd
    have hlast : (P ++ "://" ++ S ++ ":" ++ N : String).data.getLast? ≠ some '/' := by
      have hd : (P ++ "://" ++ S ++ ":" ++ N : String).data
          = (P ++ "://" ++ S ++ ":" : String).data ++ N.data := by
        simp [String.data_append]
      rw [hd, List.getLast?_append_of_ne_nil _ hN1]
      exact hN3
    simp only [hInit, hStr, show pyTruthy none = false from rfl, Option.getD]
    norm_num
    simp only [show pyTruthy (some (P ++ "://" ++ S ++ ":" ++ N)) = true by
        simp [pyTruthy, hbigne],
      show pyTruthy (some "t") = true from rfl]
    norm_num
    have hform : P.data ++ ':' :: '/' :: '/' :: (S.data ++ ':' :: N.data)
        = (P ++ "://" ++ S ++ ":" ++ N : String).data := by
      simp [String.data_append]
    rw [hform, rstripC_eq_self '/' _ hlast, stringMkData]

/-- C10 theorem applied at a concrete server, protocol and port. -/
theorem C10_dotted_properties_synthesize_address_witness :
    load_credentials envTok (some ["com.sandata.vault.server=vault.example.com"]) none
      = .ok { addr := some "https://vault.example.com:8200", token := some "t",
              role_id := none, role_secret := none, nspace := "",
              skip_verify := false, kv_version := "auto", env := none }
    ∧ load_credentials envTok
        (some ["com.sandata.vault.server=vault.example.com",
               "com.sandata.vault.protocol=http",
               "com.sandata.vault.port=8201"]) none
      = .ok { addr := some "http://vault.example.com:8201", token := some "t",
              role_id := none, role_secret := none, nspace := "",
              skip_verify := false, kv_version := "auto", env := none } :=
  C10_dotted_properties_synthesize_address "vault.example.com" "http" "8201"
    (by decide) (by decide) (by decide) (by decide) (by decide) (by decide) (by decide)

end VaultAccess
